import Mathlib

/-!
Shallow embedding of `src/Blender_x_Enfusion_AutoColliderBounder/AutoColliderBounder.py`.

Geometry is over ℚ: Blender's `mathutils.Vector` becomes `Vec3`, an object's
`matrix_world` becomes an affine map `Mat4` (linear rows plus translation).
Host (bpy/bmesh) primitives that this addon merely invokes — UV-sphere and
cylinder vertex generation, `remove_doubles`, `convex_hull` — are parameters
bundled in a `Host` structure: the addon's own logic (bounding boxes, radii,
vertex scaling and trimming, operator control flow, material bookkeeping) is
translated literally from the source.
-/

namespace AutoColliderBounder

/-- A 3-vector of rationals, standing for a `mathutils.Vector`. -/
@[ext]
structure Vec3 where
  x : ℚ
  y : ℚ
  z : ℚ
  deriving DecidableEq

def Vec3.add (a b : Vec3) : Vec3 := ⟨a.x + b.x, a.y + b.y, a.z + b.z⟩

def Vec3.sub (a b : Vec3) : Vec3 := ⟨a.x - b.x, a.y - b.y, a.z - b.z⟩

/-- Componentwise scaling by a scalar on the right, as in `(min + max) * 0.5`. -/
def Vec3.scale (a : Vec3) (q : ℚ) : Vec3 := ⟨a.x * q, a.y * q, a.z * q⟩

def Vec3.dot (a b : Vec3) : ℚ := a.x * b.x + a.y * b.y + a.z * b.z

/-- An object's `matrix_world`: three linear rows and a translation column. -/
structure Mat4 where
  rx : Vec3
  ry : Vec3
  rz : Vec3
  t : Vec3
  deriving DecidableEq

/-- `m @ v` for a 4x4 world matrix acting on a point. -/
def Mat4.apply (m : Mat4) (v : Vec3) : Vec3 :=
  ⟨m.rx.dot v + m.t.x, m.ry.dot v + m.t.y, m.rz.dot v + m.t.z⟩

/-- The world matrix of an object placed at `location` with identity rotation
and unit scale, as produced by `bpy.ops.mesh.primitive_*_add(location=...)`. -/
def Mat4.translation (t : Vec3) : Mat4 := ⟨⟨1, 0, 0⟩, ⟨0, 1, 0⟩, ⟨0, 0, 1⟩, t⟩

/-- Python `min` over a nonempty sequence (`0` default keeps it total; every
use below is guarded by nonemptiness, as Blender's 8-corner `bound_box` is). -/
def listMin : List ℚ → ℚ
  | [] => 0
  | q :: qs => qs.foldl min q

/-- Python `max` over a nonempty sequence. -/
def listMax : List ℚ → ℚ
  | [] => 0
  | q :: qs => qs.foldl max q

/-- A scene object as the two operators see it: identity, selection-relevant
`type`, the `"usage"` custom property (`none` = property absent), material
slot names, world transform, local bounding-box corners and mesh vertices. -/
structure SceneObj where
  name : String
  type : String
  usage : Option String
  materials : List String
  matrix_world : Mat4
  bound_box : List Vec3
  mesh_verts : List Vec3
  users_collection : List String
  deriving DecidableEq

/-- `get_bounding_box(obj)`: world-space min corner, max corner, size and
center of the object's bounding box (lines 5-17 of the source). -/
def get_bounding_box (obj : SceneObj) : Vec3 × Vec3 × Vec3 × Vec3 :=
  let bbox_corners := obj.bound_box.map obj.matrix_world.apply
  let min_corner : Vec3 :=
    ⟨listMin (bbox_corners.map Vec3.x),
     listMin (bbox_corners.map Vec3.y),
     listMin (bbox_corners.map Vec3.z)⟩
  let max_corner : Vec3 :=
    ⟨listMax (bbox_corners.map Vec3.x),
     listMax (bbox_corners.map Vec3.y),
     listMax (bbox_corners.map Vec3.z)⟩
  let size := max_corner.sub min_corner
  let center := (min_corner.add max_corner).scale (1 / 2)
  (min_corner, max_corner, size, center)

/-- A mesh object the addon creates: name, world transform, local vertices. -/
structure MeshObj where
  name : String
  matrix_world : Mat4
  verts : List Vec3
  deriving DecidableEq

/-- The world-space positions of an object's vertices. -/
def MeshObj.worldVerts (o : MeshObj) : List Vec3 := o.verts.map o.matrix_world.apply

/-- World-space bounding-box size (max minus min in each coordinate). -/
def MeshObj.dims (o : MeshObj) : Vec3 :=
  ⟨listMax (o.worldVerts.map Vec3.x) - listMin (o.worldVerts.map Vec3.x),
   listMax (o.worldVerts.map Vec3.y) - listMin (o.worldVerts.map Vec3.y),
   listMax (o.worldVerts.map Vec3.z) - listMin (o.worldVerts.map Vec3.z)⟩

/-- World-space bounding-box center of an object's vertices. -/
def MeshObj.bboxCenter (o : MeshObj) : Vec3 :=
  (⟨listMin (o.worldVerts.map Vec3.x),
    listMin (o.worldVerts.map Vec3.y),
    listMin (o.worldVerts.map Vec3.z)⟩ : Vec3).add
   ⟨listMax (o.worldVerts.map Vec3.x),
    listMax (o.worldVerts.map Vec3.y),
    listMax (o.worldVerts.map Vec3.z)⟩ |>.scale (1 / 2)

/-- Host mesh primitives and mesh operators this addon invokes but does not
implement: UV-sphere vertices for a radius, cylinder vertices for a radius
and depth, `remove_doubles` vertex merging, and `convex_hull`. -/
structure Host where
  sphereVerts : ℚ → List Vec3
  cylinderVerts : ℚ → ℚ → List Vec3
  removeDoubles : List Vec3 → List Vec3
  convexHull : List Vec3 → List Vec3

/-- Local vertices of `bpy.ops.mesh.primitive_cube_add(size=1.0)`: the eight
corners of an axis-aligned unit cube centred at the object origin. -/
def unitCubeVerts : List Vec3 :=
  [⟨-(1/2), -(1/2), -(1/2)⟩, ⟨-(1/2), -(1/2), 1/2⟩,
   ⟨-(1/2), 1/2, -(1/2)⟩, ⟨-(1/2), 1/2, 1/2⟩,
   ⟨1/2, -(1/2), -(1/2)⟩, ⟨1/2, -(1/2), 1/2⟩,
   ⟨1/2, 1/2, -(1/2)⟩, ⟨1/2, 1/2, 1/2⟩]

/-- `create_box_collider(size, center, src_name)` (lines 62-74): a unit cube
at `center`, renamed `UBX_<src>`, each vertex coordinate scaled by the
matching component of `size`. -/
def create_box_collider (size center : Vec3) (src_name : String) : MeshObj :=
  { name := "UBX_" ++ src_name
    matrix_world := Mat4.translation center
    verts := unitCubeVerts.map fun v => ⟨v.x * size.x, v.y * size.y, v.z * size.z⟩ }

/-- The sphere collider's radius, line 77: `max(size.x, size.y, size.z) / 2.0`. -/
def sphere_radius (size : Vec3) : ℚ := max (max size.x size.y) size.z / 2

/-- The cylinder collider's radius, line 84: `max(size.x, size.y) / 2.0`. -/
def cylinder_radius (size : Vec3) : ℚ := max size.x size.y / 2

/-- The capsule collider's cap radius, line 92: `min(size.x, size.y) / 2.0`. -/
def capsule_radius (size : Vec3) : ℚ := min size.x size.y / 2

/-- The capsule's cylindrical-part height, line 93: `size.z - 2 * r`. -/
def capsule_height (size : Vec3) : ℚ := size.z - 2 * capsule_radius size

/-- `create_sphere_collider` (lines 76-81). -/
def create_sphere_collider (host : Host) (size center : Vec3) (src_name : String) : MeshObj :=
  { name := "USP_" ++ src_name
    matrix_world := Mat4.translation center
    verts := host.sphereVerts (sphere_radius size) }

/-- `create_cylinder_collider` (lines 83-89). -/
def create_cylinder_collider (host : Host) (size center : Vec3) (src_name : String) : MeshObj :=
  { name := "UCL_" ++ src_name
    matrix_world := Mat4.translation center
    verts := host.cylinderVerts (cylinder_radius size) size.z }

/-- `create_capsule_collider` (lines 91-133). When the cylindrical height is
negative it falls back to a sphere renamed `UCS_<src>`; otherwise it builds a
cylinder at `center`, a top sphere at `center + (0,0,h/2)` keeping vertices
whose world z is not below the top plane, a bottom sphere at
`center - (0,0,h/2)` keeping vertices whose world z is not above the bottom
plane, joins the three into the cylinder's frame and runs `remove_doubles`. -/
def create_capsule_collider (host : Host) (size center : Vec3) (src_name : String) : MeshObj :=
  let r := capsule_radius size
  let h := capsule_height size
  if h < 0 then
    let collider := create_sphere_collider host size center src_name
    { collider with name := "UCS_" ++ src_name }
  else
    let cyl_verts := host.cylinderVerts r h
    let top_center := center.add ⟨0, 0, h / 2⟩
    let top_kept := (host.sphereVerts r).filter
      fun v => !decide (((Mat4.translation top_center).apply v).z < top_center.z)
    let bottom_center := center.sub ⟨0, 0, h / 2⟩
    let bottom_kept := (host.sphereVerts r).filter
      fun v => !decide (bottom_center.z < ((Mat4.translation bottom_center).apply v).z)
    let joined := cyl_verts
      ++ top_kept.map (fun v => ((Mat4.translation top_center).apply v).sub center)
      ++ bottom_kept.map (fun v => ((Mat4.translation bottom_center).apply v).sub center)
    { name := "UCS_" ++ src_name
      matrix_world := Mat4.translation center
      verts := host.removeDoubles joined }

/-- `create_convex_collider` (lines 135-146): a copy of the source object
whose mesh is replaced by its convex hull (a host op). -/
def create_convex_collider (host : Host) (src : SceneObj) (src_name : String) : MeshObj :=
  { name := "UCX_" ++ src_name
    matrix_world := src.matrix_world
    verts := host.convexHull src.mesh_verts }

/-- `create_triangle_collider` (lines 148-158): a copy of the source object
with quads converted to tris; vertex positions are untouched (faces are not
modelled here). -/
def create_triangle_collider (src : SceneObj) (src_name : String) : MeshObj :=
  { name := "UTM_" ++ src_name
    matrix_world := src.matrix_world
    verts := src.mesh_verts }

/-- A material in `bpy.data.materials`: name, RGBA diffuse color (`0.1`
becomes the rational `1/10`), and the optional `blend_method` that is set
only when the host exposes that attribute. -/
structure Material where
  name : String
  diffuse_color : ℚ × ℚ × ℚ × ℚ
  blend_method : Option String
  deriving DecidableEq

/-- The material `get_or_create_collider_material` creates when none named
`"col"` exists: yellow at 10 percent opacity (lines 37-40). -/
def defaultColMaterial (hasBlend : Bool) : Material :=
  { name := "col"
    diffuse_color := (1, 1, 0, 1 / 10)
    blend_method := if hasBlend then some "BLEND" else none }

/-- `get_or_create_collider_material` (lines 32-41), acting on the material
database: returns the first material named `"col"` if one exists, otherwise
creates it. `hasBlend` is the host's `hasattr(mat, "blend_method")`. -/
def get_or_create_collider_material (hasBlend : Bool) (db : List Material) :
    Material × List Material :=
  match db.find? (fun m => m.name == "col") with
  | some mat => (mat, db)
  | none => (defaultColMaterial hasBlend, db ++ [defaultColMaterial hasBlend])

/-- `assign_collider_material` (lines 43-48) applied to an object's material
slot list: clear the slots when nonempty, then append the `"col"` material.
Returns the new slot list and the updated material database. -/
def assign_collider_material (hasBlend : Bool) (db : List Material)
    (materials : List String) : List String × List Material :=
  let r := get_or_create_collider_material hasBlend db
  ((if materials.isEmpty then materials else []) ++ [r.1.name], r.2)

/-- An operator result: `{'FINISHED'}` or `{'CANCELLED'}`. -/
inductive OpResult where
  | FINISHED
  | CANCELLED
  deriving DecidableEq

/-- One `self.report(...)` call: severity level and message. -/
structure Report where
  level : String
  msg : String
  deriving DecidableEq

/-- A collider object as `OBJECT_OT_create_collider.execute` leaves it: the
mesh, the source it is parented to, the collections it was linked to, the
`"usage"` custom property and the material slots. (`matrix_parent_inverse`,
a host-side transform bookkeeping detail, is not modelled.) -/
structure Collider where
  obj : MeshObj
  parent : Option String
  collections : List String
  usage : Option String
  materials : List String
  deriving DecidableEq

/-- The dispatch on `self.collider_type` (lines 236-249): which creation
function runs for a selected mesh object; an unrecognised type leaves
`collider_obj = None`. -/
def create_collider_for (host : Host) (collider_type : String) (obj : SceneObj) :
    Option MeshObj :=
  let r := get_bounding_box obj
  let size := r.2.2.1
  let center := r.2.2.2
  if collider_type == "UBX" then some (create_box_collider size center obj.name)
  else if collider_type == "USP" then some (create_sphere_collider host size center obj.name)
  else if collider_type == "UCL" then some (create_cylinder_collider host size center obj.name)
  else if collider_type == "UCS" then some (create_capsule_collider host size center obj.name)
  else if collider_type == "UCX" then some (create_convex_collider host obj obj.name)
  else if collider_type == "UTM" then some (create_triangle_collider obj obj.name)
  else none

/-- The `for obj in selected_objects` loop of `OBJECT_OT_create_collider.execute`
(lines 232-258): non-mesh objects are skipped; for each mesh object a collider
is created, linked to the source's collections, parented, given the `"col"`
material and the chosen `"usage"`, and an INFO report is emitted. Returns the
reports, the created colliders and the final material database. -/
def create_loop (host : Host) (hasBlend : Bool) (collider_type collider_usage : String) :
    List SceneObj → List Material → List Report × List Collider × List Material
  | [], db => ([], [], db)
  | obj :: rest, db =>
    if obj.type ≠ "MESH" then create_loop host hasBlend collider_type collider_usage rest db
    else
      match create_collider_for host collider_type obj with
      | none => create_loop host hasBlend collider_type collider_usage rest db
      | some mesh =>
        let assigned := assign_collider_material hasBlend db []
        let collider : Collider :=
          { obj := mesh
            parent := some obj.name
            collections := obj.users_collection
            usage := some collider_usage
            materials := assigned.1 }
        let report : Report :=
          ⟨"INFO", "Created collider '" ++ mesh.name ++ "' with usage '"
            ++ collider_usage ++ "'"⟩
        let r := create_loop host hasBlend collider_type collider_usage rest assigned.2
        (report :: r.1, collider :: r.2.1, r.2.2)

/-- `OBJECT_OT_create_collider.execute` (lines 226-259): empty selection
reports a warning and returns CANCELLED with nothing created; otherwise the
loop runs and the operator returns FINISHED. -/
def create_collider_execute (host : Host) (hasBlend : Bool)
    (collider_type collider_usage : String) (selected : List SceneObj)
    (db : List Material) : List Report × OpResult × List Collider × List Material :=
  match selected with
  | [] => ([⟨"WARNING", "No objects selected"⟩], OpResult.CANCELLED, [], db)
  | _ :: _ =>
    let r := create_loop host hasBlend collider_type collider_usage selected db
    (r.1, OpResult.FINISHED, r.2.1, r.2.2)

/-- One iteration of the `OBJECT_OT_modify_collider_layer.execute` loop
(lines 317-324): non-mesh objects are skipped; an object carrying the
`"usage"` custom property gets it set to the chosen value with an INFO
report, one lacking it is left unchanged with a WARNING report. -/
def modify_step (collider_usage : String) (obj : SceneObj) : List Report × SceneObj :=
  if obj.type ≠ "MESH" then ([], obj)
  else
    match obj.usage with
    | some _ =>
      ([⟨"INFO", "Modified collider '" ++ obj.name ++ "' to usage '"
          ++ collider_usage ++ "'"⟩],
       { obj with usage := some collider_usage })
    | none =>
      ([⟨"WARNING", "Object '" ++ obj.name ++ "' is not a collider"⟩], obj)

/-- The `for obj in selected_objects` loop of
`OBJECT_OT_modify_collider_layer.execute`: reports in order, and the
selection with each object replaced by its updated version. -/
def modify_loop (collider_usage : String) : List SceneObj → List Report × List SceneObj
  | [] => ([], [])
  | obj :: rest =>
    let s := modify_step collider_usage obj
    let r := modify_loop collider_usage rest
    (s.1 ++ r.1, s.2 :: r.2)

/-- `OBJECT_OT_modify_collider_layer.execute` (lines 311-326): empty
selection reports a warning and returns CANCELLED; otherwise the loop runs
and the operator returns FINISHED. -/
def modify_collider_layer_execute (collider_usage : String) (selected : List SceneObj) :
    List Report × OpResult × List SceneObj :=
  match selected with
  | [] => ([⟨"WARNING", "No objects selected"⟩], OpResult.CANCELLED, [])
  | _ :: _ =>
    let r := modify_loop collider_usage selected
    (r.1, OpResult.FINISHED, r.2)

/-- The classes the module body defines, in order (the two operators and the
panel are the only `class` statements in `AutoColliderBounder.py`). -/
def moduleDefinedClasses : List String :=
  ["OBJECT_OT_create_collider", "OBJECT_OT_modify_collider_layer",
   "VIEW3D_PT_collider_panel"]

/-- The `classes` tuple passed to `register`/`unregister` (lines 345-349). -/
def registeredClasses : List String :=
  ["OBJECT_OT_create_collider", "OBJECT_OT_modify_collider_layer",
   "VIEW3D_PT_collider_panel"]

/-- Every name the module body references as a bare global (imports, module
functions, class names); recorded to settle whether `EnumProperty` or
`get_random_colored_material` is referenced anywhere in the snapshot. -/
def moduleReferencedGlobals : List String :=
  ["bpy", "bmesh", "math", "Vector", "get_bounding_box", "create_box_collider",
   "create_sphere_collider", "create_cylinder_collider", "create_capsule_collider",
   "create_convex_collider", "create_triangle_collider", "get_or_create_collider_material",
   "assign_collider_material", "link_to_source_collections", "parent_to_source",
   "OBJECT_OT_create_collider", "OBJECT_OT_modify_collider_layer",
   "VIEW3D_PT_collider_panel", "classes"]

/-- Modelled from the spec: the spec's phrase `radius = max extent / 2`, read
as half the largest component of the bounding-box size, stated once so the
code's three radius formulas can be compared against it. -/
def spec_max_extent_radius (size : Vec3) : ℚ := max (max size.x size.y) size.z / 2

/-- A concrete host for witnesses: a few sphere and cylinder vertices at the
named radius, `remove_doubles` and `convex_hull` as identities. -/
def host0 : Host :=
  { sphereVerts := fun r => [⟨0, 0, r⟩, ⟨r, 0, 0⟩, ⟨0, 0, -r⟩]
    cylinderVerts := fun r h => [⟨r, 0, h / 2⟩, ⟨r, 0, -(h / 2)⟩]
    removeDoubles := fun vs => vs
    convexHull := fun vs => vs }

/-- A concrete mesh source object for witnesses: a 2 x 1 x 3 box at the
origin with an identity world matrix. -/
def obj0 : SceneObj :=
  { name := "Cube"
    type := "MESH"
    usage := none
    materials := []
    matrix_world := Mat4.translation ⟨0, 0, 0⟩
    bound_box := [⟨0, 0, 0⟩, ⟨0, 0, 3⟩, ⟨0, 1, 0⟩, ⟨0, 1, 3⟩,
                  ⟨2, 0, 0⟩, ⟨2, 0, 3⟩, ⟨2, 1, 0⟩, ⟨2, 1, 3⟩]
    mesh_verts := [⟨0, 0, 0⟩, ⟨2, 1, 3⟩]
    users_collection := ["Collection"] }

theorem foldl_min_le (qs : List ℚ) (q : ℚ) : qs.foldl min q ≤ q := by
  induction qs generalizing q with
  | nil => exact le_refl q
  | cons a qs ih => exact le_trans (ih (min q a)) (min_le_left q a)

theorem le_foldl_max (qs : List ℚ) (q : ℚ) : q ≤ qs.foldl max q := by
  induction qs generalizing q with
  | nil => exact le_refl q
  | cons a qs ih => exact le_trans (le_max_left q a) (ih (max q a))

theorem listMin_le_listMax (l : List ℚ) (h : l ≠ []) : listMin l ≤ listMax l := by
  cases l with
  | nil => exact absurd rfl h
  | cons q qs => exact le_trans (foldl_min_le qs q) (le_foldl_max qs q)

theorem listMax_xpat (a b : ℚ) (h : a ≤ b) : listMax [a, a, a, a, b, b, b, b] = b := by
  simp [listMax, List.foldl, max_self, max_eq_right h, max_eq_left h]

theorem listMax_ypat (a b : ℚ) (h : a ≤ b) : listMax [a, a, b, b, a, a, b, b] = b := by
  simp [listMax, List.foldl, max_self, max_eq_right h, max_eq_left h]

theorem listMax_zpat (a b : ℚ) (h : a ≤ b) : listMax [a, b, a, b, a, b, a, b] = b := by
  simp [listMax, List.foldl, max_self, max_eq_right h, max_eq_left h]

theorem listMin_xpat (a b : ℚ) (h : a ≤ b) : listMin [a, a, a, a, b, b, b, b] = a := by
  simp [listMin, List.foldl, min_self, min_eq_left h, min_eq_right h]

theorem listMin_ypat (a b : ℚ) (h : a ≤ b) : listMin [a, a, b, b, a, a, b, b] = a := by
  simp [listMin, List.foldl, min_self, min_eq_left h, min_eq_right h]

theorem listMin_zpat (a b : ℚ) (h : a ≤ b) : listMin [a, b, a, b, a, b, a, b] = a := by
  simp [listMin, List.foldl, min_self, min_eq_left h, min_eq_right h]

theorem box_world_x (s c : Vec3) (n : String) :
    (create_box_collider s c n).worldVerts.map Vec3.x =
      [c.x - s.x / 2, c.x - s.x / 2, c.x - s.x / 2, c.x - s.x / 2,
       c.x + s.x / 2, c.x + s.x / 2, c.x + s.x / 2, c.x + s.x / 2] := by
  simp [create_box_collider, MeshObj.worldVerts, unitCubeVerts, Mat4.apply,
    Mat4.translation, Vec3.dot]
  all_goals repeat' apply And.intro
  all_goals ring

theorem box_world_y (s c : Vec3) (n : String) :
    (create_box_collider s c n).worldVerts.map Vec3.y =
      [c.y - s.y / 2, c.y - s.y / 2, c.y + s.y / 2, c.y + s.y / 2,
       c.y - s.y / 2, c.y - s.y / 2, c.y + s.y / 2, c.y + s.y / 2] := by
  simp [create_box_collider, MeshObj.worldVerts, unitCubeVerts, Mat4.apply,
    Mat4.translation, Vec3.dot]
  all_goals repeat' apply And.intro
  all_goals ring

theorem box_world_z (s c : Vec3) (n : String) :
    (create_box_collider s c n).worldVerts.map Vec3.z =
      [c.z - s.z / 2, c.z + s.z / 2, c.z - s.z / 2, c.z + s.z / 2,
       c.z - s.z / 2, c.z + s.z / 2, c.z - s.z / 2, c.z + s.z / 2] := by
  simp [create_box_collider, MeshObj.worldVerts, unitCubeVerts, Mat4.apply,
    Mat4.translation, Vec3.dot]
  all_goals repeat' apply And.intro
  all_goals ring

theorem box_dims_general (s c : Vec3) (n : String)
    (hx : 0 ≤ s.x) (hy : 0 ≤ s.y) (hz : 0 ≤ s.z) :
    (create_box_collider s c n).dims = s ∧
    (create_box_collider s c n).bboxCenter = c := by
  have hx2 : c.x - s.x / 2 ≤ c.x + s.x / 2 := by linarith
  have hy2 : c.y - s.y / 2 ≤ c.y + s.y / 2 := by linarith
  have hz2 : c.z - s.z / 2 ≤ c.z + s.z / 2 := by linarith
  constructor
  · show (⟨_, _, _⟩ : Vec3) = s
    ext
    · show listMax _ - listMin _ = s.x
      rw [box_world_x, listMax_xpat _ _ hx2, listMin_xpat _ _ hx2]; ring
    · show listMax _ - listMin _ = s.y
      rw [box_world_y, listMax_ypat _ _ hy2, listMin_ypat _ _ hy2]; ring
    · show listMax _ - listMin _ = s.z
      rw [box_world_z, listMax_zpat _ _ hz2, listMin_zpat _ _ hz2]; ring
  · ext
    · simp only [MeshObj.bboxCenter, Vec3.add, Vec3.scale]
      rw [box_world_x, listMax_xpat _ _ hx2, listMin_xpat _ _ hx2]; ring
    · simp only [MeshObj.bboxCenter, Vec3.add, Vec3.scale]
      rw [box_world_y, listMax_ypat _ _ hy2, listMin_ypat _ _ hy2]; ring
    · simp only [MeshObj.bboxCenter, Vec3.add, Vec3.scale]
      rw [box_world_z, listMax_zpat _ _ hz2, listMin_zpat _ _ hz2]; ring

theorem bbox_size_nonneg (obj : SceneObj) (hne : obj.bound_box ≠ []) :
    0 ≤ (get_bounding_box obj).2.2.1.x ∧ 0 ≤ (get_bounding_box obj).2.2.1.y ∧
    0 ≤ (get_bounding_box obj).2.2.1.z := by
  have hmap : ∀ f : Vec3 → ℚ,
      (obj.bound_box.map obj.matrix_world.apply).map f ≠ [] := by
    intro f h
    exact hne (by simpa using h)
  refine ⟨?_, ?_, ?_⟩ <;>
    exact sub_nonneg.mpr (listMin_le_listMax _ (hmap _))

/-- C1: the box collider is a unit cube placed at the source bounding box's
world-space center whose vertices are scaled componentwise by the
bounding-box size, so its world bounding-box dimensions equal that size (and
its bounding-box center is the source's bounding-box center). -/
theorem box_collider_matches_bbox (obj : SceneObj) (hne : obj.bound_box ≠ []) :
    (create_box_collider (get_bounding_box obj).2.2.1 (get_bounding_box obj).2.2.2
        obj.name).dims = (get_bounding_box obj).2.2.1 ∧
    (create_box_collider (get_bounding_box obj).2.2.1 (get_bounding_box obj).2.2.2
        obj.name).bboxCenter = (get_bounding_box obj).2.2.2 := by
  obtain ⟨hx, hy, hz⟩ := bbox_size_nonneg obj hne
  exact box_dims_general _ _ _ hx hy hz

theorem box_collider_matches_bbox_witness :
    obj0.bound_box ≠ [] ∧
    ((create_box_collider (get_bounding_box obj0).2.2.1 (get_bounding_box obj0).2.2.2
        obj0.name).dims = (get_bounding_box obj0).2.2.1 ∧
     (create_box_collider (get_bounding_box obj0).2.2.1 (get_bounding_box obj0).2.2.2
        obj0.name).bboxCenter = (get_bounding_box obj0).2.2.2) :=
  ⟨by decide, box_collider_matches_bbox obj0 (by decide)⟩

/-- C2 counterexample: at bounding-box size (2, 4, 6) the maximum extent is
6, so the claimed radius is 3; but the cylinder collider computes radius
max(x, y) / 2 = 2 and the capsule computes min(x, y) / 2 = 1, and the
cylinder is built from host cylinder vertices of radius 2, not 3. -/
theorem radius_formula_counterexample :
    cylinder_radius ⟨2, 4, 6⟩ = 2 ∧ capsule_radius ⟨2, 4, 6⟩ = 1 ∧
    spec_max_extent_radius ⟨2, 4, 6⟩ = 3 ∧
    ¬ cylinder_radius ⟨2, 4, 6⟩ = spec_max_extent_radius ⟨2, 4, 6⟩ ∧
    ¬ capsule_radius ⟨2, 4, 6⟩ = spec_max_extent_radius ⟨2, 4, 6⟩ ∧
    (create_cylinder_collider host0 ⟨2, 4, 6⟩ ⟨0, 0, 0⟩ "Cube").verts
      = host0.cylinderVerts 2 6 := by
  refine ⟨?_, ?_, ?_, ?_, ?_, ?_⟩ <;>
    norm_num [cylinder_radius, capsule_radius, spec_max_extent_radius,
      create_cylinder_collider, host0, max_def, min_def]

/-- C2 amended: only the sphere collider's radius is half the maximum extent
of the source bounding box; the cylinder collider's radius is half the larger
horizontal extent, the capsule's cap radius half the smaller horizontal
extent, and each is trivial arithmetic on the bounding-box size. -/
theorem radius_formulas (host : Host) (size center : Vec3) (n : String) :
    (create_sphere_collider host size center n).verts
      = host.sphereVerts (spec_max_extent_radius size) ∧
    (create_cylinder_collider host size center n).verts
      = host.cylinderVerts (max size.x size.y / 2) size.z ∧
    capsule_radius size = min size.x size.y / 2 ∧
    capsule_height size = size.z - 2 * capsule_radius size :=
  ⟨rfl, rfl, rfl, rfl⟩

theorem bool_not_lt (a b : ℚ) : (!decide (a < b)) = decide (b ≤ a) := by
  by_cases h : a < b
  · simp [h, not_le.mpr h]
  · simp [h, not_lt.mp h]

/-- C9: when the bounding box is too flat for the caps
(size.z - 2 * (min(size.x, size.y) / 2) < 0), the capsule path degenerates
into a sphere collider of radius max-extent / 2, renamed with the capsule
prefix UCS_. -/
theorem capsule_degenerate (host : Host) (size center : Vec3) (n : String)
    (h : capsule_height size < 0) :
    create_capsule_collider host size center n =
      { create_sphere_collider host size center n with name := "UCS_" ++ n } ∧
    (create_capsule_collider host size center n).verts
      = host.sphereVerts (spec_max_extent_radius size) ∧
    (create_capsule_collider host size center n).name = "UCS_" ++ n := by
  refine ⟨?_, ?_, ?_⟩ <;>
    simp [create_capsule_collider, if_pos h, create_sphere_collider,
      spec_max_extent_radius, sphere_radius]

theorem capsule_degenerate_witness :
    capsule_height ⟨4, 4, 1⟩ < 0 ∧
    (create_capsule_collider host0 ⟨4, 4, 1⟩ ⟨0, 0, 0⟩ "Cube" =
      { create_sphere_collider host0 ⟨4, 4, 1⟩ ⟨0, 0, 0⟩ "Cube" with
          name := "UCS_" ++ "Cube" } ∧
     (create_capsule_collider host0 ⟨4, 4, 1⟩ ⟨0, 0, 0⟩ "Cube").verts
       = host0.sphereVerts (spec_max_extent_radius ⟨4, 4, 1⟩) ∧
     (create_capsule_collider host0 ⟨4, 4, 1⟩ ⟨0, 0, 0⟩ "Cube").name
       = "UCS_" ++ "Cube") :=
  ⟨by norm_num [capsule_height, capsule_radius, min_def],
   capsule_degenerate host0 ⟨4, 4, 1⟩ ⟨0, 0, 0⟩ "Cube"
     (by norm_num [capsule_height, capsule_radius, min_def])⟩

/-- C3: in the non-degenerate case the capsule is the host's join of a host
cylinder at the bounding-box center, a host top sphere trimmed to the
vertices whose world z is at least the cylinder's top-plane z
(center.z + h/2), and a host bottom sphere trimmed to the vertices whose
world z is at most the cylinder's bottom-plane z (center.z - h/2), followed
by the host's remove-doubles pass. -/
theorem capsule_build (host : Host) (size center : Vec3) (n : String)
    (hh : 0 ≤ capsule_height size) :
    create_capsule_collider host size center n =
      { name := "UCS_" ++ n
        matrix_world := Mat4.translation center
        verts := host.removeDoubles
          (host.cylinderVerts (capsule_radius size) (capsule_height size)
            ++ ((host.sphereVerts (capsule_radius size)).filter fun v =>
                  decide (center.z + capsule_height size / 2 ≤
                    ((Mat4.translation
                      (center.add ⟨0, 0, capsule_height size / 2⟩)).apply v).z)).map
                (fun v => ((Mat4.translation
                      (center.add ⟨0, 0, capsule_height size / 2⟩)).apply v).sub center)
            ++ ((host.sphereVerts (capsule_radius size)).filter fun v =>
                  decide (((Mat4.translation
                      (center.sub ⟨0, 0, capsule_height size / 2⟩)).apply v).z ≤
                    center.z - capsule_height size / 2)).map
                (fun v => ((Mat4.translation
                      (center.sub ⟨0, 0, capsule_height size / 2⟩)).apply v).sub center)) } := by
  have hnot : ¬ capsule_height size < 0 := not_lt.mpr hh
  have hp : (fun v : Vec3 => !decide (((Mat4.translation
        (center.add ⟨0, 0, capsule_height size / 2⟩)).apply v).z <
        (center.add ⟨0, 0, capsule_height size / 2⟩).z))
      = fun v : Vec3 => decide (center.z + capsule_height size / 2 ≤
          ((Mat4.translation (center.add ⟨0, 0, capsule_height size / 2⟩)).apply v).z) := by
    funext v
    rw [bool_not_lt]
    simp [Vec3.add]
  have hq : (fun v : Vec3 => !decide ((center.sub ⟨0, 0, capsule_height size / 2⟩).z <
        ((Mat4.translation (center.sub ⟨0, 0, capsule_height size / 2⟩)).apply v).z))
      = fun v : Vec3 => decide (((Mat4.translation
          (center.sub ⟨0, 0, capsule_height size / 2⟩)).apply v).z ≤
          center.z - capsule_height size / 2) := by
    funext v
    rw [bool_not_lt]
    simp [Vec3.sub]
  simp only [create_capsule_collider, if_neg hnot, hp, hq]

theorem capsule_build_witness :
    0 ≤ capsule_height ⟨2, 2, 4⟩ ∧
    create_capsule_collider host0 ⟨2, 2, 4⟩ ⟨0, 0, 0⟩ "Cube" =
      { name := "UCS_" ++ "Cube"
        matrix_world := Mat4.translation ⟨0, 0, 0⟩
        verts := host0.removeDoubles
          (host0.cylinderVerts (capsule_radius ⟨2, 2, 4⟩) (capsule_height ⟨2, 2, 4⟩)
            ++ ((host0.sphereVerts (capsule_radius ⟨2, 2, 4⟩)).filter fun v =>
                  decide ((⟨0, 0, 0⟩ : Vec3).z + capsule_height ⟨2, 2, 4⟩ / 2 ≤
                    ((Mat4.translation
                      ((⟨0, 0, 0⟩ : Vec3).add ⟨0, 0, capsule_height ⟨2, 2, 4⟩ / 2⟩)).apply v).z)).map
                (fun v => ((Mat4.translation
                      ((⟨0, 0, 0⟩ : Vec3).add ⟨0, 0, capsule_height ⟨2, 2, 4⟩ / 2⟩)).apply v).sub
                    ⟨0, 0, 0⟩)
            ++ ((host0.sphereVerts (capsule_radius ⟨2, 2, 4⟩)).filter fun v =>
                  decide (((Mat4.translation
                      ((⟨0, 0, 0⟩ : Vec3).sub ⟨0, 0, capsule_height ⟨2, 2, 4⟩ / 2⟩)).apply v).z ≤
                    (⟨0, 0, 0⟩ : Vec3).z - capsule_height ⟨2, 2, 4⟩ / 2)).map
                (fun v => ((Mat4.translation
                      ((⟨0, 0, 0⟩ : Vec3).sub ⟨0, 0, capsule_height ⟨2, 2, 4⟩ / 2⟩)).apply v).sub
                    ⟨0, 0, 0⟩)) } :=
  ⟨by norm_num [capsule_height, capsule_radius, min_def],
   capsule_build host0 ⟨2, 2, 4⟩ ⟨0, 0, 0⟩ "Cube"
     (by norm_num [capsule_height, capsule_radius, min_def])⟩

/-- A collider-tagged mesh object for witnesses: `obj0` carrying a usage. -/
def obj1 : SceneObj :=
  { obj0 with name := "UBX_Cube", usage := some "Main" }

/-- A non-mesh object for witnesses. -/
def obj2 : SceneObj :=
  { obj0 with name := "Lamp", type := "LIGHT" }

/-- C4: with an empty selection each operator reports the host-level warning
"No objects selected" and returns CANCELLED, creating and modifying nothing
and leaving the material database untouched; any nonempty selection makes
both operators return FINISHED, so no other failure path exists. -/
theorem empty_selection_behaviour (host : Host) (hasBlend : Bool)
    (collider_type collider_usage : String) (db : List Material)
    (selected : List SceneObj) (hne : selected ≠ []) :
    create_collider_execute host hasBlend collider_type collider_usage [] db
      = ([⟨"WARNING", "No objects selected"⟩], OpResult.CANCELLED, [], db) ∧
    modify_collider_layer_execute collider_usage []
      = ([⟨"WARNING", "No objects selected"⟩], OpResult.CANCELLED, []) ∧
    (create_collider_execute host hasBlend collider_type collider_usage selected db).2.1
      = OpResult.FINISHED ∧
    (modify_collider_layer_execute collider_usage selected).2.1 = OpResult.FINISHED := by
  refine ⟨rfl, rfl, ?_, ?_⟩ <;>
    · cases selected with
      | nil => exact absurd rfl hne
      | cons o rest => rfl

theorem empty_selection_behaviour_witness :
    ([obj0] : List SceneObj) ≠ [] ∧
    (create_collider_execute host0 true "UBX" "Main" [] []
      = ([⟨"WARNING", "No objects selected"⟩], OpResult.CANCELLED, [], []) ∧
    modify_collider_layer_execute "Main" []
      = ([⟨"WARNING", "No objects selected"⟩], OpResult.CANCELLED, []) ∧
    (create_collider_execute host0 true "UBX" "Main" [obj0] []).2.1
      = OpResult.FINISHED ∧
    (modify_collider_layer_execute "Main" [obj0]).2.1 = OpResult.FINISHED) :=
  ⟨by simp, empty_selection_behaviour host0 true "UBX" "Main" [] [obj0] (by simp)⟩

theorem modify_step_obj (u : String) (o : SceneObj) :
    (modify_step u o).2
      = if o.type = "MESH" ∧ o.usage.isSome then { o with usage := some u } else o := by
  by_cases ht : o.type = "MESH"
  · cases hu : o.usage with
    | some v => simp [modify_step, ht, hu]
    | none => simp [modify_step, ht, hu]
  · simp [modify_step, ht]

theorem modify_loop_objs (u : String) (l : List SceneObj) :
    (modify_loop u l).2
      = l.map fun o =>
          if o.type = "MESH" ∧ o.usage.isSome then { o with usage := some u } else o := by
  induction l with
  | nil => rfl
  | cons o rest ih => simp [modify_loop, ih, modify_step_obj]

theorem modify_loop_reports (u : String) (l : List SceneObj) :
    (modify_loop u l).1
      = (l.filter fun o => o.type == "MESH").map fun o =>
          if o.usage.isSome then
            (⟨"INFO", "Modified collider '" ++ o.name ++ "' to usage '" ++ u ++ "'"⟩ : Report)
          else ⟨"WARNING", "Object '" ++ o.name ++ "' is not a collider"⟩ := by
  induction l with
  | nil => rfl
  | cons o rest ih =>
    by_cases ht : o.type = "MESH"
    · cases hu : o.usage with
      | some v => simp [modify_loop, modify_step, ht, hu, ih, List.filter_cons]
      | none => simp [modify_loop, modify_step, ht, hu, ih, List.filter_cons]
    · simp [modify_loop, modify_step, ht, ih, List.filter_cons]

/-- C5: for a nonempty selection, `modify_collider_layer` returns FINISHED,
sets the `"usage"` property to the chosen value exactly on the selected mesh
objects that already carry it (reporting INFO for each), and leaves every
other object unchanged, reporting a WARNING for each selected mesh object
lacking the property. -/
theorem modify_layer_per_object (collider_usage : String) (selected : List SceneObj)
    (hne : selected ≠ []) :
    (modify_collider_layer_execute collider_usage selected).2.1 = OpResult.FINISHED ∧
    (modify_collider_layer_execute collider_usage selected).2.2
      = selected.map (fun o =>
          if o.type = "MESH" ∧ o.usage.isSome then
            { o with usage := some collider_usage }
          else o) ∧
    (modify_collider_layer_execute collider_usage selected).1
      = (selected.filter fun o => o.type == "MESH").map fun o =>
          if o.usage.isSome then
            (⟨"INFO", "Modified collider '" ++ o.name ++ "' to usage '"
                ++ collider_usage ++ "'"⟩ : Report)
          else ⟨"WARNING", "Object '" ++ o.name ++ "' is not a collider"⟩ := by
  cases selected with
  | nil => exact absurd rfl hne
  | cons o rest => exact ⟨rfl, modify_loop_objs _ _, modify_loop_reports _ _⟩

theorem modify_layer_per_object_witness :
    ([obj1, obj0, obj2] : List SceneObj) ≠ [] ∧
    ((modify_collider_layer_execute "Vehicle" [obj1, obj0, obj2]).2.1
        = OpResult.FINISHED ∧
    (modify_collider_layer_execute "Vehicle" [obj1, obj0, obj2]).2.2
      = ([obj1, obj0, obj2] : List SceneObj).map (fun o =>
          if o.type = "MESH" ∧ o.usage.isSome then
            { o with usage := some "Vehicle" }
          else o) ∧
    (modify_collider_layer_execute "Vehicle" [obj1, obj0, obj2]).1
      = (([obj1, obj0, obj2] : List SceneObj).filter fun o => o.type == "MESH").map fun o =>
          if o.usage.isSome then
            (⟨"INFO", "Modified collider '" ++ o.name ++ "' to usage '"
                ++ "Vehicle" ++ "'"⟩ : Report)
          else ⟨"WARNING", "Object '" ++ o.name ++ "' is not a collider"⟩) :=
  ⟨by simp, modify_layer_per_object "Vehicle" [obj1, obj0, obj2] (by simp)⟩

/-- C8: selected objects whose type is not MESH are skipped entirely: the
create loop behaves exactly as if they were filtered out (no collider, no
report, no material change for them), the modify loop reports nothing about
them and a modify step leaves any non-mesh object unchanged with no report. -/
theorem non_mesh_objects_skipped (host : Host) (hasBlend : Bool)
    (collider_type collider_usage : String) (db : List Material)
    (selected : List SceneObj) :
    create_loop host hasBlend collider_type collider_usage selected db
      = create_loop host hasBlend collider_type collider_usage
          (selected.filter fun o => o.type == "MESH") db ∧
    (modify_loop collider_usage selected).1
      = (modify_loop collider_usage (selected.filter fun o => o.type == "MESH")).1 ∧
    ∀ o : SceneObj, o.type ≠ "MESH" → modify_step collider_usage o = ([], o) := by
  refine ⟨?_, ?_, fun o ht => by simp [modify_step, ht]⟩
  · induction selected generalizing db with
    | nil => rfl
    | cons o rest ih =>
      by_cases ht : o.type = "MESH"
      · cases hc : create_collider_for host collider_type o with
        | none => simp [create_loop, ht, hc, ih, List.filter_cons]
        | some mesh => simp [create_loop, ht, hc, ih, List.filter_cons]
      · simp [create_loop, ht, ih, List.filter_cons]
  · induction selected with
    | nil => rfl
    | cons o rest ih =>
      by_cases ht : o.type = "MESH"
      · simp [modify_loop, ht, ih, List.filter_cons]
      · simp [modify_loop, modify_step, ht, ih, List.filter_cons]

/-- Number of materials named "col" in the database. -/
def countColMaterials (db : List Material) : Nat :=
  (db.filter fun m => m.name == "col").length

theorem get_or_create_found (hasBlend : Bool) (db : List Material) (m : Material)
    (h : db.find? (fun m => m.name == "col") = some m) :
    get_or_create_collider_material hasBlend db = (m, db) := by
  simp [get_or_create_collider_material, h]

theorem get_or_create_missing (hasBlend : Bool) (db : List Material)
    (h : db.find? (fun m => m.name == "col") = none) :
    get_or_create_collider_material hasBlend db
      = (defaultColMaterial hasBlend, db ++ [defaultColMaterial hasBlend]) := by
  simp [get_or_create_collider_material, h]

theorem get_or_create_name (hasBlend : Bool) (db : List Material) :
    (get_or_create_collider_material hasBlend db).1.name = "col" := by
  cases h : db.find? (fun m => m.name == "col") with
  | none => simp [get_or_create_missing hasBlend db h, defaultColMaterial]
  | some m =>
    have := List.find?_some h
    simp only [get_or_create_found hasBlend db m h]
    exact eq_of_beq this

theorem find_col_append_default (hasBlend : Bool) (db : List Material)
    (h : db.find? (fun m => m.name == "col") = none) :
    (db ++ [defaultColMaterial hasBlend]).find? (fun m => m.name == "col")
      = some (defaultColMaterial hasBlend) := by
  induction db with
  | nil => simp [List.find?, defaultColMaterial]
  | cons m rest ih =>
    cases hpm : m.name == "col" with
    | true => simp [List.find?, hpm] at h
    | false =>
      simp only [List.find?, hpm] at h ⊢
      exact ih h

theorem create_loop_db_found (host : Host) (hasBlend : Bool)
    (collider_type collider_usage : String) (selected : List SceneObj)
    (db : List Material) (m : Material)
    (h : db.find? (fun m => m.name == "col") = some m) :
    (create_loop host hasBlend collider_type collider_usage selected db).2.2 = db := by
  induction selected with
  | nil => rfl
  | cons o rest ih =>
    by_cases ht : o.type = "MESH"
    · cases hc : create_collider_for host collider_type o with
      | none => simp [create_loop, ht, hc, ih]
      | some mesh =>
        simp [create_loop, ht, hc, assign_collider_material,
          get_or_create_found hasBlend db m h, ih]
    · simp [create_loop, ht, ih]

theorem create_loop_db (host : Host) (hasBlend : Bool)
    (collider_type collider_usage : String) (selected : List SceneObj)
    (db : List Material) :
    (create_loop host hasBlend collider_type collider_usage selected db).2.2 = db ∨
    (db.find? (fun m => m.name == "col") = none ∧
      (create_loop host hasBlend collider_type collider_usage selected db).2.2
        = db ++ [defaultColMaterial hasBlend]) := by
  induction selected with
  | nil => exact Or.inl rfl
  | cons o rest ih =>
    by_cases ht : o.type = "MESH"
    · cases hc : create_collider_for host collider_type o with
      | none => simpa [create_loop, ht, hc] using ih
      | some mesh =>
        cases hfind : db.find? (fun m => m.name == "col") with
        | some m =>
          have hrest := create_loop_db_found host hasBlend collider_type
            collider_usage rest db m hfind
          simp [create_loop, ht, hc, assign_collider_material,
            get_or_create_found hasBlend db m hfind, hrest]
        | none =>
          have hfound := find_col_append_default hasBlend db hfind
          have hrest := create_loop_db_found host hasBlend collider_type
            collider_usage rest (db ++ [defaultColMaterial hasBlend])
            (defaultColMaterial hasBlend) hfound
          refine Or.inr ⟨rfl, ?_⟩
          simp [create_loop, ht, hc, assign_collider_material,
            get_or_create_missing hasBlend db hfind, hrest]
    · simpa [create_loop, ht] using ih

theorem create_loop_colliders (host : Host) (hasBlend : Bool)
    (collider_type collider_usage : String) (selected : List SceneObj)
    (db : List Material) :
    ∀ c ∈ (create_loop host hasBlend collider_type collider_usage selected db).2.1,
      c.usage = some collider_usage ∧ c.materials = ["col"] := by
  induction selected generalizing db with
  | nil => intro c hc; exact absurd hc (List.not_mem_nil c)
  | cons o rest ih =>
    intro c hc
    by_cases ht : o.type = "MESH"
    · cases hcc : create_collider_for host collider_type o with
      | none =>
        simp only [create_loop, ht, ne_eq, not_true_eq_false, if_false, hcc] at hc
        exact ih db c hc
      | some mesh =>
        simp only [create_loop, ht, ne_eq, not_true_eq_false, if_false, hcc,
          List.mem_cons] at hc
        cases hc with
        | inl hceq =>
          subst hceq
          refine ⟨rfl, ?_⟩
          show (assign_collider_material hasBlend db []).1 = ["col"]
          simp [assign_collider_material, get_or_create_name hasBlend db]
        | inr hmem => exact ih _ c hmem
    · simp only [create_loop, ht, ne_eq, not_false_eq_true, if_true] at hc
      exact ih db c hc

/-- C6: the only persistent writes of `create_collider.execute` are the
`"usage"` string property and the material assignment: every created
collider carries `usage = the chosen value` and exactly the single material
slot "col", and the material database is either unchanged or extended by
exactly the one "col" material. -/
theorem create_collider_persistent_data (host : Host) (hasBlend : Bool)
    (collider_type collider_usage : String) (selected : List SceneObj)
    (db : List Material) :
    (∀ c ∈ (create_collider_execute host hasBlend collider_type collider_usage
        selected db).2.2.1, c.usage = some collider_usage ∧ c.materials = ["col"]) ∧
    ((create_collider_execute host hasBlend collider_type collider_usage
        selected db).2.2.2 = db ∨
     (create_collider_execute host hasBlend collider_type collider_usage
        selected db).2.2.2 = db ++ [defaultColMaterial hasBlend]) := by
  cases selected with
  | nil => exact ⟨fun c hc => by simp [create_collider_execute] at hc, Or.inl rfl⟩
  | cons o rest =>
    constructor
    · exact create_loop_colliders host hasBlend collider_type collider_usage (o :: rest) db
    · rcases create_loop_db host hasBlend collider_type collider_usage (o :: rest) db with
        h | ⟨_, h⟩
      · exact Or.inl h
      · exact Or.inr h

/-- C10: `get_or_create_collider_material` is idempotent: when no "col"
material exists it creates one with diffuse color (1, 1, 0, 0.1), a second
call returns that same material and leaves the database unchanged, a call on
a database already holding a "col" material returns it unmodified, and a
database holding at most one "col" material keeps at most one. -/
theorem get_or_create_material_idempotent (hasBlend : Bool) (db : List Material) :
    get_or_create_collider_material hasBlend
        (get_or_create_collider_material hasBlend db).2
      = ((get_or_create_collider_material hasBlend db).1,
         (get_or_create_collider_material hasBlend db).2) ∧
    (get_or_create_collider_material hasBlend db).1.name = "col" ∧
    (db.find? (fun m => m.name == "col") = none →
      (get_or_create_collider_material hasBlend db).1 = defaultColMaterial hasBlend ∧
      (get_or_create_collider_material hasBlend db).1.diffuse_color = (1, 1, 0, 1 / 10) ∧
      (get_or_create_collider_material hasBlend db).2
        = db ++ [defaultColMaterial hasBlend]) ∧
    (∀ m : Material, db.find? (fun m => m.name == "col") = some m →
      (get_or_create_collider_material hasBlend db).1 = m ∧
      (get_or_create_collider_material hasBlend db).2 = db) ∧
    (countColMaterials db ≤ 1 →
      countColMaterials (get_or_create_collider_material hasBlend db).2 ≤ 1) := by
  refine ⟨?_, get_or_create_name hasBlend db, ?_, ?_, ?_⟩
  · cases hfind : db.find? (fun m => m.name == "col") with
    | some m =>
      rw [get_or_create_found hasBlend db m hfind]
      exact get_or_create_found hasBlend db m hfind
    | none =>
      rw [get_or_create_missing hasBlend db hfind]
      exact get_or_create_found hasBlend (db ++ [defaultColMaterial hasBlend])
        (defaultColMaterial hasBlend) (find_col_append_default hasBlend db hfind)
  · intro hnone
    rw [get_or_create_missing hasBlend db hnone]
    exact ⟨rfl, rfl, rfl⟩
  · intro m2 hm2
    rw [get_or_create_found hasBlend db m2 hm2]
    exact ⟨rfl, rfl⟩
  · intro hle
    cases hfind : db.find? (fun m => m.name == "col") with
    | some m => rw [get_or_create_found hasBlend db m hfind]; exact hle
    | none =>
      rw [get_or_create_missing hasBlend db hfind]
      have hempty : db.filter (fun m => m.name == "col") = [] := by
        rw [List.filter_eq_nil_iff]
        intro m hm
        simpa using List.find?_eq_none.mp hfind m hm
      simp [countColMaterials, List.filter_append, hempty, defaultColMaterial]

/-- C7 counterexample: the snapshot under `src/` does not define more than
the three classes it registers — the defined-class list coincides with the
registered tuple — and no `OBJECT_OT_modify_to_type` class and no
`EnumProperty` / `get_random_colored_material` global references occur. -/
theorem module_classes_counterexample :
    moduleDefinedClasses = registeredClasses ∧
    ¬ 3 < moduleDefinedClasses.length ∧
    moduleDefinedClasses.Nodup ∧
    "OBJECT_OT_modify_to_type" ∉ moduleDefinedClasses ∧
    "EnumProperty" ∉ moduleReferencedGlobals ∧
    "get_random_colored_material" ∉ moduleReferencedGlobals := by
  refine ⟨rfl, ?_, ?_, ?_, ?_, ?_⟩ <;> simp [moduleDefinedClasses, moduleReferencedGlobals]

/-- C7 amended: the module of the snapshot defines exactly the three classes
it registers (the two operators and the panel), with no duplicate
definitions, no bodiless `OBJECT_OT_modify_to_type` class, and no reference
to `EnumProperty` or `get_random_colored_material` as a bare global. -/
theorem module_defines_what_it_registers :
    moduleDefinedClasses = registeredClasses ∧
    registeredClasses.length = 3 ∧
    registeredClasses.Nodup ∧
    "OBJECT_OT_modify_to_type" ∉ registeredClasses ∧
    "EnumProperty" ∉ moduleReferencedGlobals ∧
    "get_random_colored_material" ∉ moduleReferencedGlobals := by
  refine ⟨rfl, rfl, ?_, ?_, ?_, ?_⟩ <;> simp [registeredClasses, moduleReferencedGlobals]

end AutoColliderBounder
